import Mathlib

/-!
Shallow embedding of the GTA-VI WebGL demo (player / vehicle possession,
vehicle controls and fuel, mission state machine, physics-object
registration), translated from the JavaScript sources, together with
theorems checking the specification's claims against it.

Numeric values (JS floats) are embedded as rationals.  Rendering, DOM/UI,
camera, sounds and the cannon-es solver internals are external collaborators
and are not part of the embedded state; where a method reads a value
produced by the solver (for instance the chassis speed), that value is an
explicit input of the embedded function.
-/

namespace GTA

/-- Boolean action set produced by the input layer (the relevant subset of
`Controls.actions` in `Controls.js`). -/
structure Actions where
  moveForward : Bool := false
  moveBackward : Bool := false
  moveLeft : Bool := false
  moveRight : Bool := false
  jump : Bool := false
  sprint : Bool := false
  deriving DecidableEq, Repr

/-- Exact-value representation of a planar (x,z) float vector that may have
been normalized: the vector denoted is `(x, z) / Real.sqrt d`.
`THREE.Vector3.normalize` divides by the (generally irrational) length, so we
keep the unnormalized numerator together with `d`, the squared length of the
vector that was normalized (`d = 1` when no normalization took place).  All
observable quantities (components after multiplying by rational scalars, and
the squared norm) stay rational. -/
structure SVec2 where
  x : ℚ
  z : ℚ
  d : ℚ
  deriving DecidableEq, Repr

/-- Squared norm of the denoted vector `(x, z) / Real.sqrt d`. -/
def SVec2.normSq (v : SVec2) : ℚ :=
  (v.x ^ 2 + v.z ^ 2) / v.d

/-- Raw key-derived direction before normalization
(`Controls.getMovementDirection`, the four `if` statements). -/
def Controls.rawDirection (a : Actions) : ℚ × ℚ :=
  ((if a.moveLeft then (-1 : ℚ) else 0) + (if a.moveRight then 1 else 0),
   (if a.moveForward then (-1 : ℚ) else 0) + (if a.moveBackward then 1 else 0))

/-- Embedding of `Controls.getMovementDirection` (`Controls.js`): build the
direction from the four movement actions, normalize it when nonzero, and —
when the sprint action is held — multiply the result by `1.8`. -/
def Controls.getMovementDirection (a : Actions) : SVec2 :=
  let r := Controls.rawDirection a
  let lensq := r.1 ^ 2 + r.2 ^ 2
  let d := if lensq = 0 then 1 else lensq
  if a.sprint then { x := 1.8 * r.1, z := 1.8 * r.2, d := d }
  else { x := r.1, z := r.2, d := d }

/-- Rotation of a planar vector about the Y axis by the camera yaw, given as
the pair `(c, s)` of cosine and sine of the yaw angle
(`rotatedDirection.applyEuler(new THREE.Euler(0, cameraRotation.y, 0))` in
`Player.updateOnFoot`). -/
def rotateY (c s : ℚ) (v : SVec2) : SVec2 :=
  { x := v.x * c + v.z * s, z := v.z * c - v.x * s, d := v.d }

/-- Walking speed constant from the `Player` constructor (5 units/s). -/
def walkSpeed : ℚ := 5

/-- Running (sprint) speed constant from the `Player` constructor (9 units/s). -/
def runSpeed : ℚ := 9

/-- Jump impulse constant from the `Player` constructor. -/
def jumpForce : ℚ := 7

/-- Stamina drained per second of sprinting (`deltaTime * 25` in
`Player.updateOnFoot`). -/
def staminaDrainPerSec : ℚ := 25

/-- Stamina regenerated per second while not sprinting (`deltaTime * 15` in
`Player.update`). -/
def staminaRegenPerSec : ℚ := 15

/-- Maximum stamina (`stats.maxStamina` in the `Player` constructor). -/
def maxStamina : ℚ := 100

/-- Player state relevant to the claims: possession, stamina/health, and the
velocity written to the physics body.  Position, camera, inventory and
animation state are omitted. -/
structure Player where
  isInVehicle : Bool := false
  currentVehicle : Option ℕ := none
  stamina : ℚ := 100
  health : ℚ := 100
  vel : SVec2 := { x := 0, z := 0, d := 1 }
  velY : ℚ := 0
  isGrounded : Bool := false
  isJumping : Bool := false
  deriving DecidableEq, Repr

/-- Speed selection and stamina drain of `Player.updateOnFoot`: with the
sprint action held and stamina strictly positive the speed is `runSpeed` and
stamina drains at 25/s (clamped at 0); otherwise the speed is `walkSpeed` and
stamina is left unchanged here. -/
def Player.sprintStep (sprint : Bool) (stamina dt : ℚ) : ℚ × ℚ :=
  if sprint ∧ 0 < stamina then (runSpeed, max 0 (stamina - dt * staminaDrainPerSec))
  else (walkSpeed, stamina)

/-- Embedding of `Player.updateOnFoot`: compute the (possibly sprint-scaled)
movement direction, rotate it by the camera yaw `(c, s)`, choose walk or run
speed (draining stamina when sprinting), write the horizontal velocity, and
start a jump when requested while grounded.  The vehicle-entry probe and the
mesh/camera updates are external and omitted. -/
def Player.updateOnFoot (p : Player) (a : Actions) (c s dt : ℚ) : Player :=
  let moveDirection := Controls.getMovementDirection a
  let rotatedDirection := rotateY c s moveDirection
  let sp := Player.sprintStep a.sprint p.stamina dt
  let vel' : SVec2 :=
    { x := rotatedDirection.x * sp.1, z := rotatedDirection.z * sp.1, d := rotatedDirection.d }
  if a.jump ∧ p.isGrounded then
    { p with stamina := sp.2, vel := vel', velY := jumpForce,
             isGrounded := false, isJumping := true }
  else
    { p with stamina := sp.2, vel := vel' }

/-- Embedding of the stamina-relevant part of `Player.update`: when on foot,
run `updateOnFoot`; afterwards, when the sprint action is not held,
regenerate stamina at 15/s clamped at `maxStamina`.  (When in a vehicle the
source routes input to the vehicle instead; neither branch touches stamina
there.) -/
def Player.update (p : Player) (a : Actions) (c s dt : ℚ) : Player :=
  let p1 := if p.isInVehicle then p else p.updateOnFoot a c s dt
  if a.sprint then p1
  else { p1 with stamina := min maxStamina (p1.stamina + dt * staminaRegenPerSec) }

/-- Steering clamp chosen from the vehicle type in
`Vehicle.createVehiclePhysics` (sports cars tighter, trucks looser, else the
default). -/
def Vehicle.steeringClampFor (vtype : String) : ℚ :=
  if vtype = "sports" then 0.6 else if vtype = "truck" then 0.4 else 0.5

/-- Vehicle state (`Vehicle.state`, `Vehicle.controls`, and the per-wheel
actuation pushed into the cannon-es `RaycastVehicle` by `setSteeringValue`,
`applyEngineForce` and `setBrake`).  The per-vehicle constants `maxSpeed`,
`steeringClamp`, `maxForce` and `maxBrake` come from the constructor and
`createVehiclePhysics` (defaults shown are the sedan defaults:
`800 * acceleration(10)` and `50 * braking(0.8)`).  `blackened` records the
material mutation performed by `destroy()` (the only persistent observable of
that call besides driver ejection). -/
structure Vehicle where
  id : ℕ := 0
  maxSpeed : ℚ := 150
  steeringClamp : ℚ := 0.5
  maxForce : ℚ := 8000
  maxBrake : ℚ := 40
  health : ℚ := 100
  fuel : ℚ := 100
  speed : ℚ := 0
  engineOn : Bool := false
  handbrakeActive : Bool := false
  damaged : Bool := false
  blackened : Bool := false
  driver : Option ℕ := none
  throttle : ℚ := 0
  brake : ℚ := 0
  steering : ℚ := 0
  handbrake : Bool := false
  steer0 : ℚ := 0
  steer1 : ℚ := 0
  engineForce0 : ℚ := 0
  engineForce1 : ℚ := 0
  engineForce2 : ℚ := 0
  engineForce3 : ℚ := 0
  brakeW0 : ℚ := 0
  brakeW1 : ℚ := 0
  brakeW2 : ℚ := 0
  brakeW3 : ℚ := 0
  deriving DecidableEq, Repr

/-- Control inputs of `Vehicle.applyControls` (produced by
`Controls.getVehicleControls`). -/
structure VControls where
  throttle : ℚ := 0
  brake : ℚ := 0
  steering : ℚ := 0
  handbrake : Bool := false
  deriving DecidableEq, Repr

/-- Embedding of `Vehicle.startEngine`: set the engine flag (no fuel check in
the source). -/
def Vehicle.startEngine (v : Vehicle) : Vehicle :=
  if v.engineOn then v else { v with engineOn := true }

/-- Embedding of `Vehicle.stopEngine`: clear the engine flag, reset the
stored controls, zero the engine force and set a brake of 10 on all four
wheels. -/
def Vehicle.stopEngine (v : Vehicle) : Vehicle :=
  if v.engineOn then
    { v with engineOn := false,
             throttle := 0, brake := 0, steering := 0, handbrake := false,
             engineForce0 := 0, engineForce1 := 0, engineForce2 := 0, engineForce3 := 0,
             brakeW0 := 10, brakeW1 := 10, brakeW2 := 10, brakeW3 := 10 }
  else v

/-- Embedding of `Vehicle.applyControls`: auto-start the engine on first
nonzero throttle or brake, store the controls, steer the two front wheels by
`steering * steeringClamp * max 0.5 (1 - speed / maxSpeed)`, drive the two
rear wheels by `throttle * maxForce`, brake all four wheels by
`brake * maxBrake`, and with the handbrake apply `maxBrake * 2` to the rear
wheels.  (Brake-light visuals are external.) -/
def Vehicle.applyControls (v : Vehicle) (c : VControls) : Vehicle :=
  let v := if v.engineOn = false ∧ (0 < c.throttle ∨ 0 < c.brake) then v.startEngine else v
  let v := { v with throttle := c.throttle, brake := c.brake,
                    steering := c.steering, handbrake := c.handbrake }
  let speedFactor := max 0.5 (1 - v.speed / v.maxSpeed)
  let steeringValue := v.steering * v.steeringClamp * speedFactor
  let v := { v with steer0 := steeringValue, steer1 := steeringValue }
  let engineForce := v.throttle * v.maxForce
  let v := { v with engineForce2 := engineForce, engineForce3 := engineForce }
  let brakeForce := v.brake * v.maxBrake
  let v := { v with brakeW0 := brakeForce, brakeW1 := brakeForce,
                    brakeW2 := brakeForce, brakeW3 := brakeForce }
  if v.handbrake then
    { v with brakeW2 := v.maxBrake * 2, brakeW3 := v.maxBrake * 2, handbrakeActive := true }
  else
    { v with handbrakeActive := false }

/-- Embedding of `Vehicle.setDriver`: store the driver reference
(unconditionally — the source never checks for an existing driver) and start
the engine. -/
def Vehicle.setDriver (v : Vehicle) (pid : ℕ) : Vehicle :=
  Vehicle.startEngine { v with driver := some pid }

/-- Embedding of `Vehicle.removeDriver`: clear the driver reference and stop
the engine. -/
def Vehicle.removeDriver (v : Vehicle) : Vehicle :=
  Vehicle.stopEngine { v with driver := none }

/-- Embedding of `Vehicle.repair`: raise health clamped at 100, clear the
damaged flag once health is back at or above 50, and return the actual delta
applied together with the new state. -/
def Vehicle.repair (v : Vehicle) (amount : ℚ) : Vehicle × ℚ :=
  let oldHealth := v.health
  let health' := min 100 (v.health + amount)
  let damaged' := if 50 ≤ health' ∧ v.damaged then false else v.damaged
  ({ v with health := health', damaged := damaged' }, health' - oldHealth)

/-- Embedding of `Vehicle.addFuel`: raise fuel clamped at 100 and return the
actual amount added. -/
def Vehicle.addFuel (v : Vehicle) (amount : ℚ) : Vehicle × ℚ :=
  let oldFuel := v.fuel
  let fuel' := min 100 (v.fuel + amount)
  ({ v with fuel := fuel' }, fuel' - oldFuel)

/-- Embedding of the fuel part of `Vehicle.update`: record the physics-derived
speed (an input here, produced by the external solver), and while the engine
is on deduct `0.01 * dt + throttle * 0.05 * dt` of fuel, clamped at 0; if the
fuel is then 0 the engine is stopped.  (Wheel-mesh rotation is external.) -/
def Vehicle.update (v : Vehicle) (newSpeed dt : ℚ) : Vehicle :=
  let v := { v with speed := newSpeed }
  if v.engineOn then
    let fuelConsumption := 0.01 * dt + v.throttle * 0.05 * dt
    let v := { v with fuel := max 0 (v.fuel - fuelConsumption) }
    if v.fuel ≤ 0 then v.stopEngine else v
  else v

/-- Embedding of `Player.enterVehicle` (given the requesting player's id and
the vehicle found by the proximity probe, possibly absent): a no-op when the
vehicle reference is null or the requester is already in a vehicle; otherwise
the requester switches to driving the vehicle and `Vehicle.setDriver` runs.
Mesh hiding, body sleep and control-mode switching are external. -/
def Player.enterVehicle (pid : ℕ) (p : Player) (vq : Option Vehicle) :
    Player × Option Vehicle :=
  match vq with
  | none => (p, none)
  | some v =>
    if p.isInVehicle then (p, some v)
    else ({ p with currentVehicle := some v.id, isInVehicle := true },
          some (v.setDriver pid))

/-- World containing the single tracked character and the vehicle that the
possession claims act on (the character is the vehicle's driver whenever a
driver is present). -/
structure World where
  player : Player := {}
  vehicle : Vehicle := {}
  deriving DecidableEq, Repr

/-- Embedding of `Player.exitVehicle`: a no-op unless the player is in a
vehicle with a non-null current-vehicle reference; otherwise the player's
possession state is cleared and `Vehicle.removeDriver` runs on the current
vehicle.  Teleporting to the exit position and mesh/camera changes are
external. -/
def World.exitVehicle (w : World) : World :=
  if w.player.isInVehicle = false ∨ w.player.currentVehicle = none then w
  else
    { player := { w.player with isInVehicle := false, currentVehicle := none },
      vehicle := w.vehicle.removeDriver }

/-- Embedding of `Vehicle.destroy`: eject the driver when present (by running
the driver's `exitVehicle`), then blacken the body material. -/
def World.destroy (w : World) : World :=
  let w := if w.vehicle.driver.isSome then w.exitVehicle else w
  { w with vehicle := { w.vehicle with blackened := true } }

/-- Embedding of `Vehicle.takeDamage`: reduce health clamped at 0, set the
one-time damaged flag when health falls below 50, and invoke `destroy()` when
health reaches 0. -/
def World.takeDamage (w : World) (amount : ℚ) : World :=
  let health' := max 0 (w.vehicle.health - amount)
  let damaged' := if health' < 50 ∧ w.vehicle.damaged = false then true else w.vehicle.damaged
  let w := { w with vehicle := { w.vehicle with health := health', damaged := damaged' } }
  if health' ≤ 0 then w.destroy else w

/-- Objective record (`Mission.objectives` entries in `Mission.js`): id,
type tag, completion and optional flags, and the optional data read by the
automatic completion checks (`itemId` for collect, `location`/`distance` for
escape, `duration` for survive). -/
structure Objective where
  id : String
  otype : String := "pickup"
  completed : Bool := false
  optionalFlag : Bool := false
  itemId : Option String := none
  location : Option (ℚ × ℚ × ℚ) := none
  distance : Option ℚ := none
  duration : Option ℚ := none
  deriving DecidableEq, Repr

/-- Mission record (`Mission` class): identity, objectives, time limit and
elapsed time, whether a rewards payload is attached, the
`props.requireVehicle` flag, and the status string
(inactive / active / completed / failed).  The free-form `onStart`,
`onComplete`, `onUpdate` callbacks are treated as absent (the claims under
check concern missions without custom hooks); checkpoints are world-side
markers handled by the caller of `Mission.update` and are not part of this
record. -/
structure Mission where
  id : String
  title : String := ""
  mtype : String := "side"
  objectives : List Objective := []
  timeLimit : ℚ := 0
  elapsedTime : ℚ := 0
  hasRewards : Bool := false
  requireVehicle : Bool := false
  status : String := "inactive"
  deriving DecidableEq, Repr

/-- Player-side facts read by `Mission.checkMissionConditions`
(health, vehicle possession, inventory item ids, position). -/
structure GameCtx where
  playerHealth : ℚ := 100
  playerInVehicle : Bool := false
  playerItems : List String := []
  playerPos : ℚ × ℚ × ℚ := (0, 0, 0)
  deriving DecidableEq, Repr

/-- Mission-system state (`MissionSystem` class): the registered missions,
the active-mission reference (an index into `missions`, mirroring the JS
object reference), the completed-missions list, a log of the missions for
which `awardMissionRewards` ran, and the failure reason last surfaced to the
UI by `showMissionFailed`. -/
structure MissionSystem where
  missions : List Mission := []
  activeMission : Option ℕ := none
  completedMissions : List String := []
  rewardsLog : List String := []
  lastFailReason : Option String := none
  deriving DecidableEq, Repr

/-- Update the mission stored at index `i` (the JS code mutates the mission
object in place; the missions list and the active reference alias it). -/
def updateAt (i : ℕ) (f : Mission → Mission) : List Mission → List Mission
  | [] => []
  | m :: ms =>
    match i with
    | 0 => f m :: ms
    | j + 1 => m :: updateAt j f ms

/-- Apply an in-place mutation to mission `i` of the system. -/
def MissionSystem.setMissionAt (sys : MissionSystem) (i : ℕ) (f : Mission → Mission) :
    MissionSystem :=
  { sys with missions := updateAt i f sys.missions }

/-- Embedding of `Mission.isComplete`: every objective is completed or
optional. -/
def Mission.isComplete (m : Mission) : Bool :=
  m.objectives.all (fun o => o.completed || o.optionalFlag)

/-- Embedding of `Mission.initialize`: reset elapsed time and every
objective's completed flag.  (The `onStart` hook and end-location checkpoint
creation touch only world-side state outside this record.) -/
def Mission.resetForStart (m : Mission) : Mission :=
  { m with elapsedTime := 0,
           objectives := m.objectives.map (fun o => { o with completed := false }) }

/-- Embedding of `MissionSystem.startMission`: refuse (returning `false`,
with no state change) while a mission is active; otherwise set the mission as
active, mark it `"active"` and initialize it, returning `true`. -/
def MissionSystem.startMission (sys : MissionSystem) (i : ℕ) : Bool × MissionSystem :=
  if sys.activeMission.isSome then (false, sys)
  else
    let sys := { sys with activeMission := some i }
    let sys := sys.setMissionAt i (fun m => Mission.resetForStart { m with status := "active" })
    (true, sys)

/-- Embedding of `MissionSystem.completeMission`: mark the active mission
completed, run `awardMissionRewards` (logged here), append it to the
completed list and clear the active reference. -/
def MissionSystem.completeMission (sys : MissionSystem) : MissionSystem :=
  match sys.activeMission with
  | none => sys
  | some j =>
    let sys := sys.setMissionAt j (fun m => { m with status := "completed" })
    let mid := ((sys.missions[j]?).map Mission.id).getD ""
    { sys with rewardsLog := sys.rewardsLog ++ [mid],
               completedMissions := sys.completedMissions ++ [mid],
               activeMission := none }

/-- Embedding of `MissionSystem.failMission`: mark the active mission failed,
surface the reason to the UI, and clear the active reference (no rewards). -/
def MissionSystem.failMission (sys : MissionSystem) (reason : String) : MissionSystem :=
  match sys.activeMission with
  | none => sys
  | some j =>
    let sys := sys.setMissionAt j (fun m => { m with status := "failed" })
    { sys with lastFailReason := some reason, activeMission := none }

/-- Mark the first objective whose id matches as completed (the JS code
mutates the object returned by `find`). -/
def completeFirst (oid : String) : List Objective → List Objective
  | [] => []
  | o :: os =>
    if o.id = oid then { o with completed := true } :: os
    else o :: completeFirst oid os

/-- Embedding of `Mission.completeObjective` for the mission at index `i`:
unknown or already-completed objective ids return `false` with no change;
otherwise the objective is marked completed and, when the mission is thereby
complete while active, `MissionSystem.completeMission` runs (the source
defers to a custom `onComplete` hook when one is attached; hooks are treated
as absent here). -/
def Mission.completeObjectiveAt (sys : MissionSystem) (i : ℕ) (oid : String) :
    Bool × MissionSystem :=
  match sys.missions[i]? with
  | none => (false, sys)
  | some m =>
    match m.objectives.find? (fun o => o.id = oid) with
    | none => (false, sys)
    | some o =>
      if o.completed then (false, sys)
      else
        let m' := { m with objectives := completeFirst oid m.objectives }
        let sys' := sys.setMissionAt i (fun _ => m')
        if m'.isComplete ∧ m'.status = "active" then (true, sys'.completeMission)
        else (true, sys')

/-- Squared Euclidean distance (`THREE.Vector3.distanceTo` squared; the
source compares the distance against a nonnegative threshold, which is
equivalent to comparing the squares). -/
def distSq (p q : ℚ × ℚ × ℚ) : ℚ :=
  (p.1 - q.1) ^ 2 + (p.2.1 - q.2.1) ^ 2 + (p.2.2 - q.2.2) ^ 2

/-- Embedding of one iteration of the objective loop in
`Mission.checkMissionConditions`: skip completed objectives, then complete
collect objectives whose item is in the inventory, escape objectives once far
enough from their location, and survive objectives once enough time has
elapsed ("kill" is not implemented in the source; other types have no
automatic condition). -/
def Mission.autoCheckObjective (sys : MissionSystem) (i : ℕ) (ctx : GameCtx)
    (oid : String) : MissionSystem :=
  match sys.missions[i]? with
  | none => sys
  | some m =>
    match m.objectives.find? (fun o => o.id = oid) with
    | none => sys
    | some o =>
      if o.completed then sys
      else if o.otype = "collect" then
        match o.itemId with
        | some iid =>
          if ctx.playerItems.contains iid then (Mission.completeObjectiveAt sys i oid).2
          else sys
        | none => sys
      else if o.otype = "escape" then
        match o.location, o.distance with
        | some loc, some thr =>
          if distSq ctx.playerPos loc ≥ thr ^ 2 then (Mission.completeObjectiveAt sys i oid).2
          else sys
        | _, _ => sys
      else if o.otype = "survive" then
        match o.duration with
        | some dur =>
          if m.elapsedTime ≥ dur then (Mission.completeObjectiveAt sys i oid).2
          else sys
        | none => sys
      else sys

/-- Embedding of `Mission.checkMissionConditions`: run the objective loop,
then fail with "You died" when the player's health is depleted, then fail
with "You left the vehicle" for a vehicle-required mission with the player
on foot. -/
def Mission.checkMissionConditions (sys : MissionSystem) (i : ℕ) (ctx : GameCtx) :
    MissionSystem :=
  match sys.missions[i]? with
  | none => sys
  | some m =>
    let sys1 := (m.objectives.map Objective.id).foldl
      (fun s oid => Mission.autoCheckObjective s i ctx oid) sys
    let sys2 := if ctx.playerHealth ≤ 0 then sys1.failMission "You died" else sys1
    if m.requireVehicle ∧ ctx.playerInVehicle = false then
      sys2.failMission "You left the vehicle"
    else sys2

/-- Embedding of `Mission.update` for the mission at index `i`: skip unless
active; for timed missions accumulate elapsed time and fail with
"Time expired" once the limit is reached; otherwise run
`checkMissionConditions` (the `onUpdate` hook is treated as absent). -/
def Mission.update (sys : MissionSystem) (i : ℕ) (ctx : GameCtx) (dt : ℚ) :
    MissionSystem :=
  match sys.missions[i]? with
  | none => sys
  | some m =>
    if m.status ≠ "active" then sys
    else if 0 < m.timeLimit then
      let m' := { m with elapsedTime := m.elapsedTime + dt }
      let sys' := sys.setMissionAt i (fun _ => m')
      if m'.elapsedTime ≥ m'.timeLimit then sys'.failMission "Time expired"
      else Mission.checkMissionConditions sys' i ctx
    else Mission.checkMissionConditions sys i ctx

/-- Per-tick call `this.activeMission.update(deltaTime)` made by
`MissionSystem.update` (a no-op without an active mission). -/
def MissionSystem.updateActive (sys : MissionSystem) (ctx : GameCtx) (dt : ℚ) :
    MissionSystem :=
  match sys.activeMission with
  | none => sys
  | some i => Mission.update sys i ctx dt

/-- Shape of the `userData` objects attached to physics bodies.  The code
writes two shapes: `{ type, vehicle, id }` in `Vehicle.createVehiclePhysics`
and `{ mesh }` in `Physics.addObject`; absent properties are `none`
(JS `undefined`).  Object references are modeled as numeric handles. -/
structure UserData where
  utype : Option String := none
  vehicleRef : Option ℕ := none
  idTag : Option String := none
  mesh : Option ℕ := none
  deriving DecidableEq, Repr

/-- Physics body as far as the dispatch logic reads it: its `userData`
property (initially `undefined`). -/
structure PBody where
  userData : Option UserData := none
  deriving DecidableEq, Repr

/-- Physics system state relevant to object registration: the mesh/body
pairs synchronized each step (`Physics.objects`). -/
structure PhysicsSys where
  objects : List (ℕ × PBody) := []
  deriving DecidableEq, Repr

/-- Embedding of `Physics.addObject`: assign `body.userData = { mesh }`
(replacing whatever `userData` the body held) and append the pair to the
update list. -/
def Physics.addObject (ph : PhysicsSys) (meshId : ℕ) (b : PBody) :
    PhysicsSys × PBody :=
  let b' : PBody := { b with userData := some { mesh := some meshId } }
  ({ ph with objects := ph.objects ++ [(meshId, b')] }, b')

/-- Embedding of the chassis registration in `Vehicle.createVehiclePhysics`:
set `chassisBody.userData = { type: "vehicle", vehicle: this, id: this.id }`,
then call `Physics.addObject(this.group, this.chassisBody)`. -/
def Vehicle.createVehiclePhysicsChassis (ph : PhysicsSys) (selfRef : ℕ)
    (vid : String) (meshId : ℕ) (chassisBody : PBody) : PhysicsSys × PBody :=
  let chassisBody : PBody := { chassisBody with
    userData := some { utype := some "vehicle", vehicleRef := some selfRef,
                       idTag := some vid } }
  Physics.addObject ph meshId chassisBody

/-- Branch taken by the collision callback installed by
`Player.setupCollisionHandling` when the player collides with `other`. -/
inductive CollisionBranch
  | vehicleEnter
  | itemCollect
  | grounded
  | nothing
  deriving DecidableEq, Repr

/-- Embedding of the dispatch in `Player.setupCollisionHandling`: test
`other.userData && other.userData.type` against "vehicle" (entering only
when the enter-vehicle action is held), "item", and "ground". -/
def Player.collisionDispatch (enterVehiclePressed : Bool) (other : PBody) :
    CollisionBranch :=
  match other.userData with
  | none => .nothing
  | some u =>
    if u.utype = some "vehicle" then
      if enterVehiclePressed then .vehicleEnter else .nothing
    else if u.utype = some "item" then .itemCollect
    else if u.utype = some "ground" then .grounded
    else .nothing

/-- Shape of a started mission after `startMission`: status `"active"`,
objectives reset, elapsed time zeroed. -/
def missionBase (m : Mission) : Mission :=
  Mission.resetForStart { m with status := "active" }

/-- System state while a single started mission is running with elapsed time
`e` (the state reached from `startMission` on a one-mission catalog after
accumulating `e` seconds without failing). -/
def sysRunning (m : Mission) (e : ℚ) : MissionSystem :=
  { missions := [{ missionBase m with elapsedTime := e }], activeMission := some 0 }

/-- System state after the running mission timed out at elapsed time `e`. -/
def sysExpired (m : Mission) (e : ℚ) : MissionSystem :=
  { missions := [{ missionBase m with elapsedTime := e, status := "failed" }],
    activeMission := none, lastFailReason := some "Time expired" }

/-- Requesting character for the occupied-vehicle entry scenario (on foot,
id 1). -/
def c1Requester : Player := {}

/-- Vehicle already possessed by character 0 when character 1 tries to
enter. -/
def c1OccupiedVehicle : Vehicle := { id := 7, driver := some 0, engineOn := true }

/-- One-mission catalog for exercising `startMission`. -/
def c3Mission : Mission := { id := "mission_delivery_1", timeLimit := 180 }

/-- Mission system holding only `c3Mission`, nothing active. -/
def c3Sys : MissionSystem := { missions := [c3Mission] }

/-- Delivery mission used for the timeout scenario: `timeLimit = 180`, two
objectives with no automatic completion condition, rewards attached. -/
def c4Mission : Mission :=
  { id := "mission_delivery_1", title := "Special Delivery",
    objectives := [{ id := "obj_pickup", otype := "pickup" },
                   { id := "obj_deliver", otype := "destination" }],
    timeLimit := 180, hasRewards := true }

/-- Player context for the timeout scenario: alive, on foot, empty
inventory. -/
def c4Ctx : GameCtx := {}

/-- Vehicle about to run out of fuel with the engine on and no throttle. -/
def c5Vehicle : Vehicle := { engineOn := true, fuel := 1, throttle := 0 }

/-- Running vehicle with fuel to spare, used to witness the exact fuel
decrement. -/
def c5RunningVehicle : Vehicle := { engineOn := true, fuel := 50, throttle := 1 }

/-- Engine-off vehicle with an empty tank, used to witness the fuel-free
restart. -/
def c5EmptyVehicle : Vehicle := { engineOn := false, fuel := 0 }

/-- Player with stamina 50, on foot. -/
def c6Player : Player := { stamina := 50 }

/-- Sprint-only action set. -/
def c6Sprint : Actions := { sprint := true }

/-- Idle action set (no sprint). -/
def c6Rest : Actions := {}

/-- World for the damage scenario: fresh vehicle at health 100 driven by the
tracked character. -/
def c7World : World :=
  { player := { isInVehicle := true, currentVehicle := some 0 },
    vehicle := { id := 0, driver := some 0, engineOn := true } }

/-- Sedan-like vehicle at standstill for the steering scenario
(`maxSpeed = 150`, `steeringClamp = 0.5`). -/
def c8Vehicle : Vehicle := { steeringClamp := Vehicle.steeringClampFor "sedan" }

/-- Same vehicle moving at `maxSpeed` (150 km/h). -/
def c8FastVehicle : Vehicle :=
  { steeringClamp := Vehicle.steeringClampFor "sedan", speed := 150 }

/-- Full-left/right steering input of magnitude 1. -/
def c8Controls : VControls := { steering := 1 }

/-- Failed mission (as left behind by `failMission`). -/
def c9FailedMission : Mission := { id := "mission_chase_1", status := "failed" }

/-- Catalog holding only the failed mission, nothing active. -/
def c9Sys : MissionSystem := { missions := [c9FailedMission] }

/-- Completed mission (as left behind by `completeMission`). -/
def c9CompletedMission : Mission := { id := "mission_collection_1", status := "completed" }

/-- Catalog holding only the completed mission, nothing active. -/
def c9CompletedSys : MissionSystem := { missions := [c9CompletedMission] }

/-- Player sprinting with full stamina. -/
def c10Player : Player := { stamina := 100 }

/-- Forward movement with the sprint action held. -/
def c10Actions : Actions := { moveForward := true, sprint := true }

/-! Theorems checking the specification's claims. -/

/-- C1 counterexample: character 1 calls `enterVehicle` on a vehicle whose
driver reference is character 0.  The claim says the operation is a no-op
(driver unchanged, requester still on foot); in the code it is not — the
driver reference is overwritten with the requester and the requester's
possession state switches to driving. -/
theorem C1_counterexample :
    ¬ (((Player.enterVehicle 1 c1Requester (some c1OccupiedVehicle)).2.map Vehicle.driver
          = some (some 0)) ∧
       (Player.enterVehicle 1 c1Requester (some c1OccupiedVehicle)).1.isInVehicle = false ∧
       (Player.enterVehicle 1 c1Requester (some c1OccupiedVehicle)).1.currentVehicle
          = none) := by
  decide

/-- C1 (amended): `Player.enterVehicle` is a no-op exactly when the vehicle
reference is null or the requester is already in a vehicle; whenever the
requester is on foot and the vehicle is present, the vehicle's driver
reference is overwritten with the requester (regardless of any existing
driver, via `Vehicle.setDriver`) and the requester's possession state becomes
driving. -/
theorem C1_amended_enterVehicle (pid : ℕ) (p : Player) (v : Vehicle)
    (h : p.isInVehicle = false) :
    Player.enterVehicle pid p (some v)
      = ({ p with currentVehicle := some v.id, isInVehicle := true },
         some (Vehicle.startEngine { v with driver := some pid })) ∧
    Player.enterVehicle pid p none = (p, none) ∧
    ∀ (q : Player), q.isInVehicle = true →
      ∀ vq, Player.enterVehicle pid q vq = (q, vq) := by
  refine ⟨?_, rfl, ?_⟩
  · simp [Player.enterVehicle, Vehicle.setDriver, h]
  · intro q hq vq
    cases vq with
    | none => rfl
    | some w => simp [Player.enterVehicle, hq]

/-- C1 witness: the amended statement evaluated on the occupied vehicle of
the counterexample. -/
theorem C1_amended_enterVehicle_witness :
    c1Requester.isInVehicle = false ∧
    Player.enterVehicle 1 c1Requester (some c1OccupiedVehicle)
      = ({ c1Requester with currentVehicle := some 7, isInVehicle := true },
         some (Vehicle.startEngine { c1OccupiedVehicle with driver := some 1 })) :=
  ⟨rfl, (C1_amended_enterVehicle 1 c1Requester c1OccupiedVehicle rfl).1⟩

/-- C2: `Physics.addObject` replaces `body.userData` with an object holding
only the mesh reference, so the `type: "vehicle"` tag written by
`Vehicle.createVehiclePhysics` just before registering the chassis is
overwritten, and the registered chassis body takes no branch of the
collision dispatch of `Player.setupCollisionHandling`. -/
theorem C2_addObject_overwrites_userData :
    ∀ (ph : PhysicsSys) (meshId : ℕ) (b : PBody),
      ((Physics.addObject ph meshId b).2).userData
        = some { utype := none, vehicleRef := none, idTag := none, mesh := some meshId } ∧
      ∀ (selfRef : ℕ) (vid : String) (cb : PBody) (ep : Bool),
        ((Vehicle.createVehiclePhysicsChassis ph selfRef vid meshId cb).2).userData
          = some { utype := none, vehicleRef := none, idTag := none,
                   mesh := some meshId } ∧
        Player.collisionDispatch ep
            ((Vehicle.createVehiclePhysicsChassis ph selfRef vid meshId cb).2)
          = CollisionBranch.nothing := by
  intro ph meshId b
  refine ⟨rfl, ?_⟩
  intro selfRef vid cb ep
  exact ⟨rfl, by cases ep <;> rfl⟩

/-- C7: from health 100, `takeDamage(60)` leaves health 40 with the damaged
flag set; `repair(30)` leaves health 70 with the flag cleared and returns the
actual delta 30; `takeDamage(100)` clamps health at 0 (never negative) and
invokes `destroy()` (observable through the blackened body material), which
ejects the driver. -/
theorem C7_damage_repair_destroy :
    ((c7World.takeDamage 60).vehicle.health = 40 ∧
     (c7World.takeDamage 60).vehicle.damaged = true) ∧
    ((Vehicle.repair (c7World.takeDamage 60).vehicle 30).1.health = 70 ∧
     (Vehicle.repair (c7World.takeDamage 60).vehicle 30).1.damaged = false ∧
     (Vehicle.repair (c7World.takeDamage 60).vehicle 30).2 = 30) ∧
    (let w2 : World := { c7World.takeDamage 60 with
                         vehicle := (Vehicle.repair (c7World.takeDamage 60).vehicle 30).1 }
     (w2.takeDamage 100).vehicle.health = 0 ∧
     (w2.takeDamage 100).vehicle.blackened = true ∧
     (w2.takeDamage 100).vehicle.driver = none ∧
     (w2.takeDamage 100).player.isInVehicle = false ∧
     (w2.takeDamage 100).player.currentVehicle = none) := by
  norm_num [c7World, World.takeDamage, World.destroy, World.exitVehicle,
    Vehicle.repair, Vehicle.removeDriver, Vehicle.stopEngine, Option.some_ne_none]

/-- C8: the steering value applied to the two front wheels by
`Vehicle.applyControls` is exactly
`steering * steeringClamp * max 0.5 (1 - speed / maxSpeed)`; in particular,
steering input 1 at speed 0 with `maxSpeed = 150` and clamp 0.5 gives 0.5,
and at speed 150 the factor floors at 0.5 giving 0.25. -/
theorem C8_steering_scaling :
    (∀ (v : Vehicle) (c : VControls),
      (v.applyControls c).steer0
          = c.steering * v.steeringClamp * max 0.5 (1 - v.speed / v.maxSpeed) ∧
      (v.applyControls c).steer1
          = c.steering * v.steeringClamp * max 0.5 (1 - v.speed / v.maxSpeed)) ∧
    (c8Vehicle.applyControls c8Controls).steer0 = 0.5 ∧
    (c8FastVehicle.applyControls c8Controls).steer0 = 0.25 := by
  refine ⟨fun v c => ?_, ?_, ?_⟩
  · constructor <;>
      · simp only [Vehicle.applyControls, Vehicle.startEngine]
        split_ifs <;> rfl
  · have hcl : Vehicle.steeringClampFor "sedan" = 0.5 := by
      unfold Vehicle.steeringClampFor
      rw [if_neg (by decide), if_neg (by decide)]
    norm_num [c8Vehicle, c8Controls, Vehicle.applyControls, Vehicle.startEngine, hcl]
  · have hcl : Vehicle.steeringClampFor "sedan" = 0.5 := by
      unfold Vehicle.steeringClampFor
      rw [if_neg (by decide), if_neg (by decide)]
    norm_num [c8FastVehicle, c8Controls, Vehicle.applyControls, Vehicle.startEngine, hcl]

/-- Updating index `i` changes exactly the entry read back at `i`. -/
theorem updateAt_get_self (f : Mission → Mission) :
    ∀ (l : List Mission) (i : ℕ), (updateAt i f l)[i]? = l[i]?.map f
  | [], i => by cases i <;> rfl
  | m :: ms, 0 => by simp [updateAt]
  | m :: ms, i + 1 => by
    simpa [updateAt] using updateAt_get_self f ms i

/-- Successful path of `startMission`: with no active mission, the call
returns `true`, records the mission as active, and stores it back
initialized with status `"active"`. -/
theorem startMission_success (sys : MissionSystem) (i : ℕ) (m : Mission)
    (hm : sys.missions[i]? = some m) (hact : sys.activeMission = none) :
    (sys.startMission i).1 = true ∧
    (sys.startMission i).2.activeMission = some i ∧
    (sys.startMission i).2.missions[i]?
      = some (Mission.resetForStart { m with status := "active" }) := by
  refine ⟨?_, ?_, ?_⟩ <;>
    simp [MissionSystem.startMission, hact, MissionSystem.setMissionAt,
      updateAt_get_self, hm]

/-- C3: `startMission` called while a mission is active returns `false` and
changes nothing (active mission, statuses and lists all unchanged, since the
whole system state is returned untouched); with no active mission it marks
the mission active, records it as the active mission, and returns `true`. -/
theorem C3_startMission_exclusive (sys : MissionSystem) (i : ℕ) (m : Mission)
    (hm : sys.missions[i]? = some m) :
    (∀ j, sys.activeMission = some j → sys.startMission i = (false, sys)) ∧
    (sys.activeMission = none →
      (sys.startMission i).1 = true ∧
      (sys.startMission i).2.activeMission = some i ∧
      ((sys.startMission i).2.missions[i]?).map Mission.status = some "active") := by
  constructor
  · intro j hj
    simp [MissionSystem.startMission, hj]
  · intro hact
    obtain ⟨h1, h2, h3⟩ := startMission_success sys i m hm hact
    exact ⟨h1, h2, by rw [h3]; rfl⟩

/-- C3 witness: the exclusivity statement evaluated on a one-mission catalog
with nothing active. -/
theorem C3_startMission_exclusive_witness :
    (c3Sys.startMission 0).1 = true ∧
    (c3Sys.startMission 0).2.activeMission = some 0 ∧
    ((c3Sys.startMission 0).2.missions[0]?).map Mission.status = some "active" :=
  (C3_startMission_exclusive c3Sys 0 c3Mission rfl).2 rfl

/-- C9 counterexample: the mission catalog holds a single mission whose
status is `"failed"` and no mission is active; a single `startMission` call
returns `true` and sets that mission's status back to `"active"`, so a
mission that left `"inactive"` does become active again without a game
restart. -/
theorem C9_counterexample :
    (c9Sys.startMission 0).1 = true ∧
    ((c9Sys.startMission 0).2.missions[0]?).map Mission.status = some "active" ∧
    (c9Sys.startMission 0).2.activeMission = some 0 := by
  refine ⟨rfl, ?_, rfl⟩
  rfl

/-- C9 (amended): `startMission` guards only on the active-mission
reference; whenever no mission is active, a mission whose status is
`"completed"` or `"failed"` (like any other) is re-activated by
`startMission`, which returns `true` and sets its status to `"active"`.
One-directionality of the status machine is not enforced by
`startMission`. -/
theorem C9_amended_restart (sys : MissionSystem) (i : ℕ) (m : Mission)
    (hm : sys.missions[i]? = some m) (hact : sys.activeMission = none)
    (_hst : m.status = "completed" ∨ m.status = "failed") :
    (sys.startMission i).1 = true ∧
    ((sys.startMission i).2.missions[i]?).map Mission.status = some "active" := by
  obtain ⟨h1, _, h3⟩ := startMission_success sys i m hm hact
  exact ⟨h1, by rw [h3]; rfl⟩

/-- C9 witness: the amended statement evaluated on a catalog holding one
completed mission. -/
theorem C9_amended_restart_witness :
    (c9CompletedSys.startMission 0).1 = true ∧
    ((c9CompletedSys.startMission 0).2.missions[0]?).map Mission.status
      = some "active" :=
  C9_amended_restart c9CompletedSys 0 c9CompletedMission rfl rfl (Or.inl rfl)

/-- C5 counterexample: a running vehicle burns its last fuel during an
update tick and the engine stops; but a single `applyControls` with throttle
1 — with the tank still empty, no fuel ever replenished — restarts the
engine (`startEngine` never checks fuel).  The claim that the engine remains
off until fuel is replenished and throttle or brake is reasserted is
therefore false: reasserting the throttle alone suffices. -/
theorem C5_counterexample :
    (c5Vehicle.update 0 100).engineOn = false ∧
    (c5Vehicle.update 0 100).fuel = 0 ∧
    ((c5Vehicle.update 0 100).applyControls { throttle := 1 }).engineOn = true ∧
    ((c5Vehicle.update 0 100).applyControls { throttle := 1 }).fuel = 0 := by
  norm_num [c5Vehicle, Vehicle.update, Vehicle.stopEngine, Vehicle.applyControls,
    Vehicle.startEngine]

/-- C5 (amended): while the engine is on, `Vehicle.update` deducts exactly
`0.01*dt + throttle*0.05*dt` of fuel (clamped at 0), strictly decreasing fuel
whenever fuel and `dt` are positive and the throttle is nonnegative; after
such a tick the engine is on exactly when the remaining fuel is positive, so
the engine stops in the very tick in which fuel reaches 0 and stays off under
further `update` ticks (which then leave fuel unchanged).  However the engine
does not stay off until refueling: any `applyControls` with positive throttle
or brake restarts it even with an empty tank, leaving fuel unchanged. -/
theorem C5_amended_fuel (v : Vehicle) (ns dt : ℚ) (c : VControls) :
    (v.engineOn = true →
      (v.update ns dt).fuel = max 0 (v.fuel - (0.01 * dt + v.throttle * 0.05 * dt))) ∧
    (v.engineOn = true → 0 < v.fuel → 0 < dt → 0 ≤ v.throttle →
      (v.update ns dt).fuel < v.fuel) ∧
    (v.engineOn = true → ((v.update ns dt).engineOn = true ↔ 0 < (v.update ns dt).fuel)) ∧
    (v.engineOn = false → (v.update ns dt).engineOn = false ∧ (v.update ns dt).fuel = v.fuel) ∧
    (v.engineOn = false → 0 < c.throttle ∨ 0 < c.brake →
      (v.applyControls c).engineOn = true ∧ (v.applyControls c).fuel = v.fuel) := by
  have hfuel : v.engineOn = true →
      (v.update ns dt).fuel = max 0 (v.fuel - (0.01 * dt + v.throttle * 0.05 * dt)) := by
    intro h
    simp only [Vehicle.update, Vehicle.stopEngine, h]
    split_ifs <;> rfl
  refine ⟨hfuel, ?_, ?_, ?_, ?_⟩
  · intro h hf hdt hthr
    rw [hfuel h]
    have hc : 0 < 0.01 * dt + v.throttle * 0.05 * dt := by nlinarith
    rw [max_lt_iff]
    exact ⟨hf, by linarith⟩
  · intro h
    by_cases hle : max 0 (v.fuel - (0.01 * dt + v.throttle * 0.05 * dt)) ≤ 0
    · have hz : max 0 (v.fuel - (0.01 * dt + v.throttle * 0.05 * dt)) = 0 :=
        le_antisymm hle (le_max_left 0 _)
      simp [Vehicle.update, Vehicle.stopEngine, h, hle, hz]
    · simp [Vehicle.update, Vehicle.stopEngine, h, hle, not_le.mp hle]
  · intro h
    simp [Vehicle.update, h]
  · intro h hc
    have hstart : (if v.engineOn = false ∧ (0 < c.throttle ∨ 0 < c.brake)
        then v.startEngine else v) = { v with engineOn := true } := by
      rw [if_pos ⟨h, hc⟩]
      simp [Vehicle.startEngine, h]
    simp only [Vehicle.applyControls, hstart]
    split_ifs <;> exact ⟨rfl, rfl⟩

/-- C5 witness: the amended statement evaluated on a running vehicle with
fuel 50 and throttle 1 over a one-second tick, and on an engine-off vehicle
with an empty tank receiving full throttle. -/
theorem C5_amended_fuel_witness :
    (c5RunningVehicle.update 0 1).fuel
      = max 0 (c5RunningVehicle.fuel
          - (0.01 * 1 + c5RunningVehicle.throttle * 0.05 * 1)) ∧
    (c5RunningVehicle.update 0 1).fuel < c5RunningVehicle.fuel ∧
    ((c5EmptyVehicle.applyControls { throttle := 1 }).engineOn = true ∧
     (c5EmptyVehicle.applyControls { throttle := 1 }).fuel = c5EmptyVehicle.fuel) :=
  ⟨(C5_amended_fuel c5RunningVehicle 0 1 { throttle := 1 }).1 rfl,
   (C5_amended_fuel c5RunningVehicle 0 1 { throttle := 1 }).2.1 rfl (by norm_num [c5RunningVehicle])
     (by norm_num) (by norm_num [c5RunningVehicle]),
   (C5_amended_fuel c5EmptyVehicle 0 1 { throttle := 1 }).2.2.2.2 rfl (Or.inl (by norm_num))⟩

/-- `Player.update` never changes the possession flag. -/
theorem Player.update_isInVehicle (p : Player) (a : Actions) (c s dt : ℚ) :
    (p.update a c s dt).isInVehicle = p.isInVehicle := by
  simp only [Player.update, Player.updateOnFoot]
  split_ifs <;> rfl

/-- Per-tick stamina under a held sprint action on foot: exactly
`max 0 (stamina - dt * drainRate)`. -/
theorem Player.update_sprint_stamina (p : Player) (a : Actions) (c s dt : ℚ)
    (hfoot : p.isInVehicle = false) (hsp : a.sprint = true)
    (hst : 0 ≤ p.stamina) (hdt : 0 ≤ dt) :
    (p.update a c s dt).stamina = max 0 (p.stamina - dt * staminaDrainPerSec) := by
  have h25 : (0:ℚ) ≤ staminaDrainPerSec := by norm_num [staminaDrainPerSec]
  have hstep : (p.update a c s dt).stamina = (Player.sprintStep a.sprint p.stamina dt).2 := by
    simp only [Player.update]
    rw [if_pos hsp, if_neg (by simp [hfoot])]
    simp only [Player.updateOnFoot]
    split_ifs <;> rfl
  rw [hstep, Player.sprintStep, hsp]
  rcases lt_or_eq_of_le hst with hpos | hzero
  · rw [if_pos ⟨rfl, hpos⟩]
  · rw [if_neg (by simp [← hzero])]
    rw [← hzero]
    show (0:ℚ) = max 0 (0 - dt * staminaDrainPerSec)
    exact (max_eq_left (by nlinarith)).symm

/-- Clamped subtraction composes: draining `a` then `b` from `st` with a
floor at 0 equals draining `a + b` at once, as long as `b` is
nonnegative. -/
theorem max_drain_comp (st a b : ℚ) (hb : 0 ≤ b) :
    max 0 (max 0 (st - a) - b) = max 0 (st - (a + b)) := by
  rcases le_total (st - a) 0 with h | h
  · rw [max_eq_left h, max_eq_left (by linarith), max_eq_left (by linarith)]
  · rw [max_eq_right h]
    have : st - a - b = st - (a + b) := by ring
    rw [this]

/-- Stamina after a run of consecutive sprinting ticks on foot: the drain is
`drainRate` times the summed tick durations, clamped at 0. -/
theorem sprint_fold_stamina (a : Actions) (c s : ℚ) (hsp : a.sprint = true) :
    ∀ (dts : List ℚ), (∀ x ∈ dts, 0 ≤ x) →
      ∀ (p : Player), p.isInVehicle = false → 0 ≤ p.stamina →
        (dts.foldl (fun q x => q.update a c s x) p).stamina
          = max 0 (p.stamina - staminaDrainPerSec * dts.sum)
  | [], _, p, _, hst => by
    simp [max_eq_right hst]
  | dt :: dts, hdts, p, hfoot, hst => by
    rw [List.foldl_cons]
    have hdt : 0 ≤ dt := hdts dt (List.mem_cons_self dt dts)
    have hdts' : ∀ x ∈ dts, 0 ≤ x := fun x hx => hdts x (List.mem_cons_of_mem dt hx)
    have hfoot' : (p.update a c s dt).isInVehicle = false := by
      rw [Player.update_isInVehicle, hfoot]
    have hstam := Player.update_sprint_stamina p a c s dt hfoot hsp hst hdt
    have hst' : 0 ≤ (p.update a c s dt).stamina := by
      rw [hstam]; exact le_max_left 0 _
    rw [sprint_fold_stamina a c s hsp dts hdts' (p.update a c s dt) hfoot' hst', hstam]
    rw [max_drain_comp p.stamina (dt * staminaDrainPerSec) (staminaDrainPerSec * dts.sum)
      (by
        have hsum : 0 ≤ dts.sum := List.sum_nonneg hdts'
        have : (0:ℚ) ≤ staminaDrainPerSec := by norm_num [staminaDrainPerSec]
        positivity)]
    have : dt * staminaDrainPerSec + staminaDrainPerSec * dts.sum
        = staminaDrainPerSec * (dt + dts.sum) := by ring
    rw [this, List.sum_cons]

/-- C6 counterexample: the drain rate (25/s) is not slower than the
regeneration rate (15/s) — the claim's "regeneration ... faster than the
drain rate" is false — and behaviorally, one second of sprinting followed by
one second of rest leaves the player at stamina 40, below the starting 50,
so equal-duration regeneration does not recover the sprint drain. -/
theorem C6_counterexample :
    ¬ (staminaDrainPerSec < staminaRegenPerSec) ∧
    ((c6Player.update c6Sprint 1 0 1).update c6Rest 1 0 1).stamina < c6Player.stamina := by
  constructor
  · norm_num [staminaDrainPerSec, staminaRegenPerSec]
  · norm_num [c6Player, c6Sprint, c6Rest, Player.update, Player.updateOnFoot,
      Player.sprintStep, staminaDrainPerSec, staminaRegenPerSec, maxStamina,
      runSpeed, walkSpeed]

/-- C6 (amended): sprinting continuously on foot for ticks summing to `d`
drains stamina to `max 0 (stamina - 25 * d)`; stamina never increases while
the sprint action is held and regenerates at 15/s — slower than the 25/s
drain rate, not faster — clamped at 100, while not sprinting; stamina never
exceeds 100; and the run speed is selected exactly when sprinting with
stamina strictly positive. -/
theorem C6_amended_stamina (p : Player) (a an : Actions) (c s dt : ℚ) (dts : List ℚ)
    (hfoot : p.isInVehicle = false) (hst : 0 ≤ p.stamina)
    (hsp : a.sprint = true) (hns : an.sprint = false)
    (hdts : ∀ x ∈ dts, 0 ≤ x) (hdt : 0 ≤ dt) :
    ((dts.foldl (fun q x => q.update a c s x) p).stamina
        = max 0 (p.stamina - staminaDrainPerSec * dts.sum)) ∧
    ((p.update a c s dt).stamina ≤ p.stamina) ∧
    ((p.update an c s dt).stamina = min maxStamina (p.stamina + dt * staminaRegenPerSec)) ∧
    (p.stamina ≤ maxStamina →
      (p.update a c s dt).stamina ≤ maxStamina ∧
      (p.update an c s dt).stamina ≤ maxStamina) ∧
    ((Player.sprintStep a.sprint p.stamina dt).1 = runSpeed ↔ 0 < p.stamina) ∧
    staminaRegenPerSec < staminaDrainPerSec := by
  have hdrain := Player.update_sprint_stamina p a c s dt hfoot hsp hst hdt
  have hregen : (p.update an c s dt).stamina
      = min maxStamina (p.stamina + dt * staminaRegenPerSec) := by
    have hcond : ¬ (an.sprint = true ∧ 0 < p.stamina) := by simp [hns]
    have hsp2 : (Player.sprintStep an.sprint p.stamina dt).2 = p.stamina := by
      rw [Player.sprintStep, if_neg hcond]
    have honfoot : (p.updateOnFoot an c s dt).stamina = p.stamina := by
      simp only [Player.updateOnFoot]
      split_ifs <;> exact hsp2
    simp only [Player.update]
    rw [if_neg (by simp [hns]), if_neg (by simp [hfoot])]
    rw [honfoot]
  refine ⟨sprint_fold_stamina a c s hsp dts hdts p hfoot hst, ?_, hregen, ?_, ?_, ?_⟩
  · rw [hdrain]
    have : (0:ℚ) ≤ dt * staminaDrainPerSec := by
      have : (0:ℚ) ≤ staminaDrainPerSec := by norm_num [staminaDrainPerSec]
      positivity
    rw [max_le_iff]
    exact ⟨hst, by linarith⟩
  · intro hcap
    constructor
    · rw [hdrain]
      have : (0:ℚ) ≤ dt * staminaDrainPerSec := by
        have : (0:ℚ) ≤ staminaDrainPerSec := by norm_num [staminaDrainPerSec]
        positivity
      rw [max_le_iff]
      refine ⟨by norm_num [maxStamina], by linarith⟩
    · rw [hregen]
      exact min_le_left _ _
  · rw [Player.sprintStep, hsp]
    constructor
    · intro hrun
      by_contra hnot
      rw [if_neg (by simpa using hnot)] at hrun
      norm_num [walkSpeed, runSpeed] at hrun
    · intro hpos
      rw [if_pos ⟨rfl, hpos⟩]
  · norm_num [staminaRegenPerSec, staminaDrainPerSec]

/-- C6 witness: the amended statement evaluated on a player at stamina 50
sprinting for two one-second ticks. -/
theorem C6_amended_stamina_witness :
    (([1, 1] : List ℚ).foldl (fun q x => q.update c6Sprint 1 0 x) c6Player).stamina
      = max 0 (c6Player.stamina - staminaDrainPerSec * ([1, 1] : List ℚ).sum) ∧
    staminaRegenPerSec < staminaDrainPerSec :=
  ⟨(C6_amended_stamina c6Player c6Sprint c6Rest 1 0 1 [1, 1] rfl (by norm_num [c6Player])
      rfl rfl (by norm_num) (by norm_num)).1,
   (C6_amended_stamina c6Player c6Sprint c6Rest 1 0 1 [1, 1] rfl (by norm_num [c6Player])
      rfl rfl (by norm_num) (by norm_num)).2.2.2.2.2⟩

/-- Velocity written by `Player.update` while on foot: the rotated movement
direction scaled by the chosen walk/run speed. -/
theorem Player.update_vel (p : Player) (a : Actions) (c s dt : ℚ)
    (hfoot : p.isInVehicle = false) :
    (p.update a c s dt).vel =
      { x := (rotateY c s (Controls.getMovementDirection a)).x
               * (Player.sprintStep a.sprint p.stamina dt).1,
        z := (rotateY c s (Controls.getMovementDirection a)).z
               * (Player.sprintStep a.sprint p.stamina dt).1,
        d := (rotateY c s (Controls.getMovementDirection a)).d } := by
  have h1 : (p.update a c s dt).vel = (p.updateOnFoot a c s dt).vel := by
    have hin : (if p.isInVehicle = true then p else p.updateOnFoot a c s dt)
        = p.updateOnFoot a c s dt := by
      rw [if_neg (by simp [hfoot])]
    simp only [Player.update, hin]
    split_ifs <;> rfl
  have h2 : (p.updateOnFoot a c s dt).vel =
      { x := (rotateY c s (Controls.getMovementDirection a)).x
               * (Player.sprintStep a.sprint p.stamina dt).1,
        z := (rotateY c s (Controls.getMovementDirection a)).z
               * (Player.sprintStep a.sprint p.stamina dt).1,
        d := (rotateY c s (Controls.getMovementDirection a)).d } := by
    simp only [Player.updateOnFoot]
    split_ifs <;> rfl
  rw [h1, h2]

/-- C10 counterexample: sprinting forward with full stamina, the squared
magnitude of the applied horizontal velocity is `(1.8 * runSpeed)^2 = 262.44`
rather than `runSpeed^2 = 81`: `getMovementDirection` scales the normalized
direction by 1.8 under sprint, so the claim that the velocity is the unit
direction times `runSpeed` is false. -/
theorem C10_counterexample :
    ((c10Player.update c10Actions 1 0 1).vel).normSq ≠ runSpeed ^ 2 ∧
    ((c10Player.update c10Actions 1 0 1).vel).normSq = (1.8 : ℚ) ^ 2 * runSpeed ^ 2 := by
  constructor <;>
    norm_num [c10Player, c10Actions, Player.update, Player.updateOnFoot, Player.sprintStep,
      Controls.getMovementDirection, Controls.rawDirection, rotateY, SVec2.normSq,
      runSpeed, walkSpeed, staminaDrainPerSec, staminaRegenPerSec, maxStamina]

/-- C10 (amended): for any nonzero movement input on foot, the squared
magnitude of the horizontal velocity written to the body is
`(1.8 if sprinting else 1)^2` times the square of the chosen speed — the
speed is `runSpeed` only when sprinting with stamina available and
`walkSpeed` otherwise, but under sprint the magnitude carries the extra 1.8
factor introduced by `getMovementDirection`; with zero movement input the
velocity is zero. -/
theorem C10_amended_velocity (p : Player) (a : Actions) (c s dt : ℚ)
    (hfoot : p.isInVehicle = false) (hrot : c ^ 2 + s ^ 2 = 1) :
    (Controls.rawDirection a ≠ (0, 0) →
      ((p.update a c s dt).vel).normSq
        = (if a.sprint = true then (1.8 : ℚ) ^ 2 else 1)
            * (Player.sprintStep a.sprint p.stamina dt).1 ^ 2) ∧
    (Controls.rawDirection a = (0, 0) →
      ((p.update a c s dt).vel).normSq = 0) := by
  rw [Player.update_vel p a c s dt hfoot]
  constructor
  · intro hne
    have hl : (Controls.rawDirection a).1 ^ 2 + (Controls.rawDirection a).2 ^ 2 ≠ 0 := by
      intro h0
      apply hne
      have h1 : (Controls.rawDirection a).1 = 0 := by
        nlinarith [sq_nonneg (Controls.rawDirection a).1, sq_nonneg (Controls.rawDirection a).2]
      have h2 : (Controls.rawDirection a).2 = 0 := by
        nlinarith [sq_nonneg (Controls.rawDirection a).1, sq_nonneg (Controls.rawDirection a).2]
      exact Prod.ext h1 h2
    simp only [Controls.getMovementDirection]
    rw [if_neg hl]
    by_cases hs : a.sprint = true
    · rw [if_pos hs, if_pos hs]
      simp only [rotateY, SVec2.normSq]
      rw [div_eq_iff hl]
      linear_combination ((1.8 : ℚ) ^ 2 * (Player.sprintStep a.sprint p.stamina dt).1 ^ 2
        * ((Controls.rawDirection a).1 ^ 2 + (Controls.rawDirection a).2 ^ 2)) * hrot
    · rw [if_neg hs, if_neg hs]
      simp only [rotateY, SVec2.normSq]
      rw [div_eq_iff hl]
      linear_combination ((Player.sprintStep a.sprint p.stamina dt).1 ^ 2
        * ((Controls.rawDirection a).1 ^ 2 + (Controls.rawDirection a).2 ^ 2)) * hrot
  · intro heq
    simp only [Controls.getMovementDirection, heq]
    split_ifs <;> norm_num [rotateY, SVec2.normSq]

/-- C10 witness: the amended statement evaluated on the sprinting forward
input of the counterexample (camera yaw 0). -/
theorem C10_amended_velocity_witness :
    ((c10Player.update c10Actions 1 0 1).vel).normSq
      = (if c10Actions.sprint = true then (1.8 : ℚ) ^ 2 else 1)
          * (Player.sprintStep c10Actions.sprint c10Player.stamina 1).1 ^ 2 :=
  (C10_amended_velocity c10Player c10Actions 1 0 1 rfl (by norm_num)).1
    (by norm_num [Controls.rawDirection, c10Actions, Prod.ext_iff])

/-- The objective pass of `checkMissionConditions` leaves the system
unchanged for one objective id when every objective of the inspected mission
has type "pickup" or "destination" (no automatic completion condition). -/
theorem autoCheck_noop (sys : MissionSystem) (i : ℕ) (ctx : GameCtx) (oid : String)
    (h : ∀ m, sys.missions[i]? = some m →
          ∀ o ∈ m.objectives, o.otype = "pickup" ∨ o.otype = "destination") :
    Mission.autoCheckObjective sys i ctx oid = sys := by
  unfold Mission.autoCheckObjective
  cases hm : sys.missions[i]? with
  | none => rfl
  | some m =>
    dsimp only
    cases hf : m.objectives.find? (fun o => o.id = oid) with
    | none => rfl
    | some o =>
      dsimp only
      have hmem : o ∈ m.objectives := List.mem_of_find?_eq_some hf
      by_cases hc : o.completed
      · rw [if_pos hc]
      · rw [if_neg hc]
        rcases h m hm o hmem with h1 | h1
        · rw [h1]
          rw [if_neg (by decide : ¬ ("pickup" = "collect"))]
          rw [if_neg (by decide : ¬ ("pickup" = "escape"))]
          rw [if_neg (by decide : ¬ ("pickup" = "survive"))]
        · rw [h1]
          rw [if_neg (by decide : ¬ ("destination" = "collect"))]
          rw [if_neg (by decide : ¬ ("destination" = "escape"))]
          rw [if_neg (by decide : ¬ ("destination" = "survive"))]

/-- The whole objective loop is a no-op under the same hypothesis. -/
theorem foldAutoCheck_noop (i : ℕ) (ctx : GameCtx) :
    ∀ (ids : List String) (sys : MissionSystem),
      (∀ m, sys.missions[i]? = some m →
        ∀ o ∈ m.objectives, o.otype = "pickup" ∨ o.otype = "destination") →
      ids.foldl (fun s oid => Mission.autoCheckObjective s i ctx oid) sys = sys
  | [], _, _ => rfl
  | oid :: ids, sys, h => by
    rw [List.foldl_cons, autoCheck_noop sys i ctx oid h]
    exact foldAutoCheck_noop i ctx ids sys h

/-- While the running mission's objectives all lack automatic completion
conditions, the player is alive, and the vehicle requirement (if any) is
met, `checkMissionConditions` changes nothing. -/
theorem checkConditions_noop (m : Mission) (ctx : GameCtx) (e' : ℚ)
    (hobj : ∀ o ∈ m.objectives, o.otype = "pickup" ∨ o.otype = "destination")
    (hhp : 0 < ctx.playerHealth)
    (hveh : m.requireVehicle = true → ctx.playerInVehicle = true) :
    Mission.checkMissionConditions (sysRunning m e') 0 ctx = sysRunning m e' := by
  have hsysobj : ∀ m', (sysRunning m e').missions[0]? = some m' →
      ∀ o ∈ m'.objectives, o.otype = "pickup" ∨ o.otype = "destination" := by
    intro m' hm'
    have h2 : some ({ missionBase m with elapsedTime := e' }) = some m' := hm'
    obtain rfl := (Option.some.inj h2).symm
    intro o ho
    have ho' : o ∈ m.objectives.map (fun o => { o with completed := false }) := ho
    rcases List.mem_map.mp ho' with ⟨o', ho'', rfl⟩
    exact hobj o' ho''
  have key2 : Mission.checkMissionConditions (sysRunning m e') 0 ctx
      = (if ({ missionBase m with elapsedTime := e' }).requireVehicle
            ∧ ctx.playerInVehicle = false
         then (if ctx.playerHealth ≤ 0
               then ((({ missionBase m with elapsedTime := e' }).objectives.map
                      Objective.id).foldl
                      (fun s oid => Mission.autoCheckObjective s 0 ctx oid)
                      (sysRunning m e')).failMission "You died"
               else (({ missionBase m with elapsedTime := e' }).objectives.map
                      Objective.id).foldl
                      (fun s oid => Mission.autoCheckObjective s 0 ctx oid)
                      (sysRunning m e')).failMission "You left the vehicle"
         else (if ctx.playerHealth ≤ 0
               then ((({ missionBase m with elapsedTime := e' }).objectives.map
                      Objective.id).foldl
                      (fun s oid => Mission.autoCheckObjective s 0 ctx oid)
                      (sysRunning m e')).failMission "You died"
               else (({ missionBase m with elapsedTime := e' }).objectives.map
                      Objective.id).foldl
                      (fun s oid => Mission.autoCheckObjective s 0 ctx oid)
                      (sysRunning m e'))) := rfl
  rw [key2, foldAutoCheck_noop 0 ctx _ _ hsysobj, if_neg (not_le.mpr hhp)]
  by_cases hrv : m.requireVehicle = true
  · have hno : ¬ (({ missionBase m with elapsedTime := e' }).requireVehicle
        ∧ ctx.playerInVehicle = false) := by
      rintro ⟨-, hpv⟩
      rw [hveh hrv] at hpv
      exact Bool.noConfusion hpv
    rw [if_neg hno]
  · have hno : ¬ (({ missionBase m with elapsedTime := e' }).requireVehicle
        ∧ ctx.playerInVehicle = false) := by
      rintro ⟨hv, -⟩
      exact hrv hv
    rw [if_neg hno]

/-- One `Mission.update` tick of the running system: accumulate the tick
duration and either fail with "Time expired" at the limit or stay running
unchanged (under the conditions of `checkConditions_noop`). -/
theorem tick_sysRunning (m : Mission) (ctx : GameCtx) (e dt : ℚ)
    (hT : m.timeLimit = 180)
    (hobj : ∀ o ∈ m.objectives, o.otype = "pickup" ∨ o.otype = "destination")
    (hhp : 0 < ctx.playerHealth)
    (hveh : m.requireVehicle = true → ctx.playerInVehicle = true) :
    MissionSystem.updateActive (sysRunning m e) ctx dt
      = if (e + dt : ℚ) ≥ 180 then sysExpired m (e + dt) else sysRunning m (e + dt) := by
  cases m with
  | mk mid mtitle mmtype mobjs mtl mel mhr mrv mst =>
    dsimp only at hT
    subst hT
    have key : MissionSystem.updateActive
        (sysRunning ⟨mid, mtitle, mmtype, mobjs, 180, mel, mhr, mrv, mst⟩ e) ctx dt
        = if (e + dt : ℚ) ≥ 180
          then MissionSystem.failMission
            (sysRunning ⟨mid, mtitle, mmtype, mobjs, 180, mel, mhr, mrv, mst⟩ (e + dt))
            "Time expired"
          else Mission.checkMissionConditions
            (sysRunning ⟨mid, mtitle, mmtype, mobjs, 180, mel, mhr, mrv, mst⟩ (e + dt))
            0 ctx := rfl
    rw [key]
    have hfail : MissionSystem.failMission
        (sysRunning ⟨mid, mtitle, mmtype, mobjs, 180, mel, mhr, mrv, mst⟩ (e + dt))
        "Time expired"
        = sysExpired ⟨mid, mtitle, mmtype, mobjs, 180, mel, mhr, mrv, mst⟩ (e + dt) := rfl
    by_cases hle : (e + dt : ℚ) ≥ 180
    · rw [if_pos hle, if_pos hle, hfail]
    · rw [if_neg hle, if_neg hle,
        checkConditions_noop ⟨mid, mtitle, mmtype, mobjs, 180, mel, mhr, mrv, mst⟩
          ctx (e + dt) hobj hhp hveh]

/-- Once expired, further `updateActive` ticks change nothing (the active
reference is cleared). -/
theorem foldExpired (m : Mission) (ctx : GameCtx) :
    ∀ (dts : List ℚ) (e : ℚ),
      dts.foldl (fun s dt => MissionSystem.updateActive s ctx dt) (sysExpired m e)
        = sysExpired m e
  | [], _ => rfl
  | dt :: dts, e => by
    rw [List.foldl_cons]
    have h1 : MissionSystem.updateActive (sysExpired m e) ctx dt = sysExpired m e := rfl
    rw [h1]
    exact foldExpired m ctx dts e

/-- Folding ticks over the running system: either the mission is still
running with the summed elapsed time below the limit, or it has expired. -/
theorem foldTicks (m : Mission) (ctx : GameCtx)
    (hT : m.timeLimit = 180)
    (hobj : ∀ o ∈ m.objectives, o.otype = "pickup" ∨ o.otype = "destination")
    (hhp : 0 < ctx.playerHealth)
    (hveh : m.requireVehicle = true → ctx.playerInVehicle = true) :
    ∀ (dts : List ℚ), (∀ x ∈ dts, 0 ≤ x) → ∀ e : ℚ, e < 180 →
      ((dts.foldl (fun s dt => MissionSystem.updateActive s ctx dt) (sysRunning m e)
          = sysRunning m (e + dts.sum)) ∧ e + dts.sum < 180) ∨
      (∃ eN, dts.foldl (fun s dt => MissionSystem.updateActive s ctx dt) (sysRunning m e)
          = sysExpired m eN)
  | [], _, e, he => Or.inl ⟨by simp, by simpa using he⟩
  | dt :: dts, hdts, e, he => by
    rw [List.foldl_cons, tick_sysRunning m ctx e dt hT hobj hhp hveh]
    by_cases hle : (e + dt : ℚ) ≥ 180
    · rw [if_pos hle]
      exact Or.inr ⟨e + dt, foldExpired m ctx dts (e + dt)⟩
    · rw [if_neg hle]
      have hdts' : ∀ x ∈ dts, 0 ≤ x := fun x hx => hdts x (List.mem_cons_of_mem dt hx)
      rcases foldTicks m ctx hT hobj hhp hveh dts hdts' (e + dt) (not_le.mp hle) with
        ⟨heq, hlt⟩ | ⟨eN, heq⟩
      · refine Or.inl ⟨?_, ?_⟩
        · rw [heq, List.sum_cons]
          congr 1
          ring
        · rw [List.sum_cons]
          linarith
      · exact Or.inr ⟨eN, heq⟩

/-- C4: a mission with `timeLimit = 180` whose objectives have no automatic
completion condition, started on a fresh one-mission system (so no objective
is completed), run for ticks of nonnegative duration summing to at least 181
seconds while the player stays alive and any vehicle requirement is met,
ends with status "failed", the failure reason surfaced to the UI is
"Time expired", and `awardMissionRewards` never runs (the rewards log stays
empty). -/
theorem C4_timeout_no_rewards (m : Mission) (ctx : GameCtx) (dts : List ℚ)
    (hT : m.timeLimit = 180)
    (hobj : ∀ o ∈ m.objectives, o.otype = "pickup" ∨ o.otype = "destination")
    (hhp : 0 < ctx.playerHealth)
    (hveh : m.requireVehicle = true → ctx.playerInVehicle = true)
    (hdts : ∀ x ∈ dts, 0 ≤ x) (hsum : 181 ≤ dts.sum) :
    ((dts.foldl (fun s dt => MissionSystem.updateActive s ctx dt)
        (MissionSystem.startMission { missions := [m] } 0).2).missions[0]?).map
          Mission.status = some "failed" ∧
    (dts.foldl (fun s dt => MissionSystem.updateActive s ctx dt)
        (MissionSystem.startMission { missions := [m] } 0).2).lastFailReason
      = some "Time expired" ∧
    (dts.foldl (fun s dt => MissionSystem.updateActive s ctx dt)
        (MissionSystem.startMission { missions := [m] } 0).2).rewardsLog = [] := by
  have hstart : (MissionSystem.startMission { missions := [m] } 0).2 = sysRunning m 0 := rfl
  rw [hstart]
  rcases foldTicks m ctx hT hobj hhp hveh dts hdts 0 (by norm_num) with ⟨heq, hlt⟩ | ⟨eN, heq⟩
  · exfalso
    rw [zero_add] at hlt
    linarith
  · rw [heq]
    exact ⟨rfl, rfl, rfl⟩

/-- C4 witness: the timeout statement evaluated on the Special Delivery
mission (two objectives, pickup and destination, rewards attached) with two
ticks of 90 and 91 seconds. -/
theorem C4_timeout_no_rewards_witness :
    ((([90, 91] : List ℚ).foldl (fun s dt => MissionSystem.updateActive s c4Ctx dt)
        (MissionSystem.startMission { missions := [c4Mission] } 0).2).missions[0]?).map
          Mission.status = some "failed" ∧
    (([90, 91] : List ℚ).foldl (fun s dt => MissionSystem.updateActive s c4Ctx dt)
        (MissionSystem.startMission { missions := [c4Mission] } 0).2).lastFailReason
      = some "Time expired" ∧
    (([90, 91] : List ℚ).foldl (fun s dt => MissionSystem.updateActive s c4Ctx dt)
        (MissionSystem.startMission { missions := [c4Mission] } 0).2).rewardsLog = [] :=
  C4_timeout_no_rewards c4Mission c4Ctx [90, 91] rfl (by decide)
    (by norm_num [c4Ctx]) (fun h => absurd h (by decide))
    (by norm_num) (by norm_num [List.sum_cons, List.sum_nil])

end GTA
